import Mathlib

/-!
Verification development for the cybersecurity log analyzer.

The repository consists of a log parser (format detection, per-format line
parsing, timestamp normalisation, summary statistics) and a tiered anomaly
classifier (remote LLM tier, remote zero-shot tier, deterministic rule
engine).  This file gives a shallow embedding of the relevant JavaScript
code and proves or refutes the specification claims about it.

Modelling conventions:
  - JavaScript strings are Lean Strings; all the string data handled by the
    claims is ASCII, so UTF-16 versus codepoint distinctions do not arise.
  - Thrown exceptions are modelled with Except / Option; a try/catch is a
    match on the Except value.
  - Remote network calls are modelled by injected outcome values
    (Except String ...): the code under verification never inspects more of
    the remote response than these carry.
  - Numbers carrying scores are rationals; all score arithmetic in the
    source is exact decimal arithmetic, faithfully represented in ℚ.
  - JavaScript Date values are epoch milliseconds (Nat, instants at or
    after the Unix epoch, which covers every value the pipeline produces).
-/

/-! ### Character and string helpers (ASCII models of the JS operations) -/

/-- ASCII lower-casing of one character, the effect of the /i regex flag and
of String.prototype.toLowerCase on the ASCII strings handled here. -/
def lowerChar (c : Char) : Char :=
  if 'A' ≤ c ∧ c ≤ 'Z' then Char.ofNat (c.toNat + 32) else c

/-- Lower-case every character of a character list. -/
def lowerList (l : List Char) : List Char := l.map lowerChar

/-- Does the second list start with the first one? -/
def startsWithC : List Char → List Char → Bool
  | [], _ => true
  | _ :: _, [] => false
  | a :: as, b :: bs => a = b && startsWithC as bs

/-- Substring test on character lists: needle occurs somewhere in hay. -/
def containsC (needle : List Char) : List Char → Bool
  | [] => needle.isEmpty
  | h :: t => startsWithC needle (h :: t) || containsC needle t

/-- Substring test on strings, the model of String.prototype.includes. -/
def containsStr (hay needle : String) : Bool :=
  containsC needle.toList hay.toList

/-- Split a character list on a separator character, the model of
String.prototype.split with a one-character separator. -/
def splitOnC (sep : Char) : List Char → List (List Char)
  | [] => [[]]
  | c :: t =>
    let r := splitOnC sep t
    if c = sep then [] :: r
    else
      match r with
      | [] => [[c]]
      | h :: t2 => (c :: h) :: t2

/-- String.prototype.split with a one-character separator. -/
def jsSplit (sep : Char) (s : String) : List String :=
  (splitOnC sep s.toList).map String.mk

/-- String.prototype.substring(0, n) on ASCII strings. -/
def takeStr (n : Nat) (s : String) : String :=
  String.mk (s.toList.take n)

/-! ### Date model: epoch milliseconds, civil calendar, JS Date rendering -/

/-- Civil date (year, month, day) from a count of days since 1970-01-01,
for nonnegative day counts. -/
def civilFromDays (z0 : Nat) : Nat × Nat × Nat :=
  let z := z0 + 719468
  let era := z / 146097
  let doe := z % 146097
  let yoe := (doe - doe / 1460 + doe / 36524 - doe / 146096) / 365
  let y := yoe + era * 400
  let doy := doe - (365 * yoe + yoe / 4 - yoe / 100)
  let mp := (5 * doy + 2) / 153
  let d := doy - (153 * mp + 2) / 5 + 1
  let m := if mp < 10 then mp + 3 else mp - 9
  (if m ≤ 2 then y + 1 else y, m, d)

/-- Days since 1970-01-01 of a civil date with year at least 1970. -/
def daysFromCivil (y m d : Nat) : Nat :=
  let yy := if m ≤ 2 then y - 1 else y
  let era := yy / 400
  let yoe := yy % 400
  let doy := (153 * (if 2 < m then m - 3 else m + 9) + 2) / 5 + d - 1
  let doe := yoe * 365 + yoe / 4 - yoe / 100 + doy
  era * 146097 + doe - 719468

/-- Zero-pad a number to two digits. -/
def pad2 (n : Nat) : String := if n < 10 then "0" ++ toString n else toString n

/-- Zero-pad a number to three digits. -/
def pad3 (n : Nat) : String :=
  if n < 10 then "00" ++ toString n
  else if n < 100 then "0" ++ toString n
  else toString n

/-- Zero-pad a number to four digits. -/
def pad4 (n : Nat) : String :=
  if n < 10 then "000" ++ toString n
  else if n < 100 then "00" ++ toString n
  else if n < 1000 then "0" ++ toString n
  else toString n

/-- Date.prototype.toISOString on an instant given in epoch milliseconds. -/
def toISOString (ms : Nat) : String :=
  let days := ms / 86400000
  let rem := ms % 86400000
  let c := civilFromDays days
  pad4 c.1 ++ "-" ++ pad2 c.2.1 ++ "-" ++ pad2 c.2.2 ++ "T" ++
    pad2 (rem / 3600000) ++ ":" ++ pad2 (rem % 3600000 / 60000) ++ ":" ++
    pad2 (rem % 60000 / 1000) ++ "." ++ pad3 (rem % 1000) ++ "Z"

/-- Abbreviated weekday names as rendered by Date.prototype.toString. -/
def weekdayNames : List String := ["Sun", "Mon", "Tue", "Wed", "Thu", "Fri", "Sat"]

/-- Abbreviated month names as rendered by Date.prototype.toString. -/
def monthNames : List String :=
  ["Jan", "Feb", "Mar", "Apr", "May", "Jun", "Jul", "Aug", "Sep", "Oct", "Nov", "Dec"]

/-- The order-relevant prefix of Date.prototype.toString in a UTC
environment: weekday, month, day, year, time.  The timezone suffix is
identical for all dates and therefore never influences a comparison of two
such strings. -/
def jsDateKey (ms : Nat) : String :=
  let days := ms / 86400000
  let rem := ms % 86400000
  let c := civilFromDays days
  weekdayNames.getD ((days + 4) % 7) "" ++ " " ++
    monthNames.getD (c.2.1 - 1) "" ++ " " ++ pad2 c.2.2 ++ " " ++ toString c.1 ++ " " ++
    pad2 (rem / 3600000) ++ ":" ++ pad2 (rem % 3600000 / 60000) ++ ":" ++
    pad2 (rem % 60000 / 1000)

/-- Lexicographic comparison of character lists by code point, the way
JavaScript compares the strings produced during a default Array sort. -/
def charListLe : List Char → List Char → Bool
  | [], _ => true
  | _ :: _, [] => false
  | a :: as, b :: bs => if a = b then charListLe as bs else decide (a < b)

/-- String comparison used by the default JavaScript array sort. -/
def jsStringLe (a b : String) : Bool := charListLe a.toList b.toList

/-- Insert into a list sorted ascending by a boolean relation. -/
def insertLeB (le : α → α → Bool) (x : α) : List α → List α
  | [] => [x]
  | y :: ys => if le x y then x :: y :: ys else y :: insertLeB le x ys

/-- Sort a list ascending by a boolean relation. -/
def sortLeB (le : α → α → Bool) : List α → List α
  | [] => []
  | x :: xs => insertLeB le x (sortLeB le xs)

/-- Default JavaScript Array.prototype.sort applied to an array of Date
objects: each element is converted to its string rendering and the strings
are compared lexicographically by UTF-16 code unit. -/
def jsDefaultDateSort (l : List Nat) : List Nat :=
  sortLeB (fun a b => jsStringLe (jsDateKey a) (jsDateKey b)) l

/-- Decimal digit value of a character. -/
def digitVal (c : Char) : Nat := c.toNat - 48

/-- Two-digit number from two digit characters. -/
def d2 (a b : Char) : Nat := digitVal a * 10 + digitVal b

/-- JavaScript new Date(s) restricted to the extended ISO format
YYYY-MM-DDTHH:MM:SS.sssZ, which is the only shape of timestamp string the
pipeline stores on entries (parseTimestamp always emits toISOString
output).  none models an Invalid Date. -/
def parseISOZ (s : String) : Option Nat :=
  match s.toList with
  | [y1, y2, y3, y4, h1c, m1, m2, h2c, dd1, dd2, tc, hh1, hh2, c1, mi1, mi2, c2,
     ss1, ss2, dc, f1, f2, f3, zc] =>
    if h1c = '-' ∧ h2c = '-' ∧ tc = 'T' ∧ c1 = ':' ∧ c2 = ':' ∧ dc = '.' ∧ zc = 'Z' ∧
       ([y1, y2, y3, y4, m1, m2, dd1, dd2, hh1, hh2, mi1, mi2, ss1, ss2, f1, f2, f3].all
         Char.isDigit) then
      let y := d2 y1 y2 * 100 + d2 y3 y4
      let mo := d2 m1 m2
      let da := d2 dd1 dd2
      let hh := d2 hh1 hh2
      let mi := d2 mi1 mi2
      let ss := d2 ss1 ss2
      let fr := digitVal f1 * 100 + digitVal f2 * 10 + digitVal f3
      some (daysFromCivil y mo da * 86400000 + (hh * 3600 + mi * 60 + ss) * 1000 + fr)
    else none
  | _ => none

/-! ### Log parser embedding (logParser.js, class LogParser)

The regular-expression captures of the apache, nginx, linux, windows and
generic parsers, and the behaviour of new Date on arbitrary strings, are
injected as oracle functions: the claims under verification do not depend
on the internals of those matches, only on how the code uses their
results.  Everything else (comma splitting, string building, defaulting,
the summary aggregation) is modelled concretely. -/

/-- Capture groups of the apache access-log regex: ip, bracketed
timestamp, quoted request, status digits, size digits. -/
structure ApacheCaps where
  ip : String
  ts : String
  request : String
  status : String
  size : String

/-- Capture groups of the nginx access-log regex. -/
structure NginxCaps where
  ip : String
  ts : String
  request : String
  status : String
  size : String
  referer : String
  userAgent : String

/-- Capture groups of the linux syslog regex: timestamp, hostname,
service, message. -/
structure LinuxCaps where
  ts : String
  hostname : String
  service : String
  message : String

/-- Injected environment: the outcome of new Date(s) on arbitrary strings
(none models an Invalid Date), the current instant, and the regex matches
whose internals the claims do not depend on. -/
structure JsOracles where
  jsNewDate : String → Option Nat
  now : Nat
  rxApache : String → Option ApacheCaps
  rxNginx : String → Option NginxCaps
  rxLinux : String → Option LinuxCaps
  rxWinEventId : String → Option String
  rxWinSource : String → Option String
  rxWinTime : String → Option String
  rxGenericIp : String → Option String
  rxGenericTs : String → Option String

/-- The normalized record produced by parsing one line.  Optional fields
are format specific; absent means the JS object lacks the property. -/
structure ParsedLogEntry where
  timestamp : String := ""
  ip_address : String := ""
  event_description : String := ""
  raw_log_line : String := ""
  log_type : String := ""
  line_number : Nat := 0
  destination_ip : Option String := none
  user : Option String := none
  url : Option String := none
  category : Option String := none
  action : Option String := none
  reason : Option String := none
  method : Option String := none
  path : Option String := none
  protocol : Option String := none
  status_code : Option Nat := none
  response_size : Option Nat := none
  referer : Option String := none
  user_agent : Option String := none
  event_id : Option String := none
  source : Option String := none
  hostname : Option String := none
  service : Option String := none
  message : Option String := none
deriving DecidableEq, Repr

/-- Is a character a word character for the regex class used by the
apache timestamp rewrite? -/
def isWordChar (c : Char) : Bool := c.isAlphanum || c = '_'

/-- Attempt the apache timestamp pattern DD/Mon/YYYY:HH:MM:SS at the head
of the character list; on success return the replacement text
YYYY-Mon-DDTHH:MM:SS together with the unconsumed remainder. -/
def rewriteAt : List Char → Option (List Char × List Char)
  | d1 :: d2 :: '/' :: w1 :: w2 :: w3 :: '/' :: y1 :: y2 :: y3 :: y4 :: ':' ::
      h1 :: h2 :: ':' :: n1 :: n2 :: ':' :: s1 :: s2 :: rest =>
    if ([d1, d2, y1, y2, y3, y4, h1, h2, n1, n2, s1, s2].all Char.isDigit) &&
       ([w1, w2, w3].all isWordChar) then
      some ([y1, y2, y3, y4, '-', w1, w2, w3, '-', d1, d2, 'T',
             h1, h2, ':', n1, n2, ':', s1, s2], rest)
    else none
  | _ => none

/-- Replace the first occurrence of the apache timestamp pattern, the model
of timestamp.replace(regex, dollar-group template) in parseTimestamp. -/
def rewriteFirst : List Char → List Char
  | [] => []
  | c :: t =>
    match rewriteAt (c :: t) with
    | some (rep, rest) => rep ++ rest
    | none => c :: rewriteFirst t

/-- Apache/nginx timestamp preprocessing before date conversion. -/
def apacheRewrite (s : String) : String := String.mk (rewriteFirst s.toList)

/-- Calendar year of an instant, the model of getFullYear in UTC. -/
def yearOf (ms : Nat) : Nat := (civilFromDays (ms / 86400000)).1

/-- The string handed to new Date by parseTimestamp for a given input and
format hint, after the format-specific preprocessing. -/
def preprocessTimestamp (o : JsOracles) (timestamp format : String) : String :=
  if format = "apache" || format = "nginx" then apacheRewrite timestamp
  else if format = "linux" then timestamp ++ " " ++ toString (yearOf o.now)
  else timestamp

/-- LogParser.parseTimestamp.  A failed or invalid date conversion would
make toISOString throw; the try/catch turns any such failure into the
current instant, so the whole function is total. -/
def parseTimestamp (o : JsOracles) (timestamp : String) (format : String) : String :=
  match o.jsNewDate (preprocessTimestamp o timestamp format) with
  | some ms => toISOString ms
  | none => toISOString o.now

/-- LogParser.parseZscalerLog: comma-split, require at least eight fields,
build the entry; an empty first field (falsy in JS) defaults to now. -/
def parseZscalerLog (o : JsOracles) (line : String) (lineNumber : Nat) :
    Option ParsedLogEntry :=
  let parts := jsSplit ',' line
  if parts.length < 8 then none
  else
    let timestamp := if parts.getD 0 "" = "" then toISOString o.now else parts.getD 0 ""
    let sourceIP := parts.getD 1 ""
    let destinationIP := parts.getD 2 ""
    let action := parts.getD 3 ""
    let url := parts.getD 4 ""
    let category := parts.getD 5 ""
    let user := parts.getD 6 ""
    let reason := parts.getD 7 ""
    some { timestamp := parseTimestamp o timestamp "iso"
           ip_address := sourceIP
           destination_ip := some destinationIP
           event_description := "ZScaler: " ++ action ++ " - " ++ url ++
             " (Category: " ++ category ++ ")"
           user := some user
           url := some url
           category := some category
           action := some action
           reason := some reason
           raw_log_line := line
           log_type := "zscaler"
           line_number := lineNumber + 1 }

/-- LogParser.parseApacheLog, with the regex match injected. -/
def parseApacheLog (o : JsOracles) (line : String) (lineNumber : Nat) :
    Option ParsedLogEntry :=
  match o.rxApache line with
  | none => none
  | some m =>
    let reqParts := jsSplit ' ' m.request
    some { timestamp := parseTimestamp o m.ts "apache"
           ip_address := m.ip
           event_description := "Apache: " ++ reqParts.getD 0 "" ++ " " ++
             reqParts.getD 1 "" ++ " - Status: " ++ m.status
           method := some (reqParts.getD 0 "")
           path := some (reqParts.getD 1 "")
           protocol := some (reqParts.getD 2 "")
           status_code := some ((m.status.toNat?).getD 0)
           response_size := some ((m.size.toNat?).getD 0)
           raw_log_line := line
           log_type := "apache"
           line_number := lineNumber + 1 }

/-- LogParser.parseNginxLog, with the regex match injected. -/
def parseNginxLog (o : JsOracles) (line : String) (lineNumber : Nat) :
    Option ParsedLogEntry :=
  match o.rxNginx line with
  | none => none
  | some m =>
    let reqParts := jsSplit ' ' m.request
    some { timestamp := parseTimestamp o m.ts "nginx"
           ip_address := m.ip
           event_description := "Nginx: " ++ reqParts.getD 0 "" ++ " " ++
             reqParts.getD 1 "" ++ " - Status: " ++ m.status
           method := some (reqParts.getD 0 "")
           path := some (reqParts.getD 1 "")
           protocol := some (reqParts.getD 2 "")
           status_code := some ((m.status.toNat?).getD 0)
           response_size := some ((m.size.toNat?).getD 0)
           referer := some m.referer
           user_agent := some m.userAgent
           raw_log_line := line
           log_type := "nginx"
           line_number := lineNumber + 1 }

/-- LogParser.parseWindowsLog: only lines containing the literal text
Event ID: produce an entry; the three regex extracts are injected. -/
def parseWindowsLog (o : JsOracles) (line : String) (lineNumber : Nat) :
    Option ParsedLogEntry :=
  if containsStr line "Event ID:" then
    let eventId := (o.rxWinEventId line).getD ""
    let source := (o.rxWinSource line).getD ""
    let timestamp := match o.rxWinTime line with
      | some t => t
      | none => toISOString o.now
    some { timestamp := parseTimestamp o timestamp "windows"
           ip_address := "localhost"
           event_description := "Windows Event: " ++ source ++ " - Event ID: " ++ eventId
           event_id := some eventId
           source := some source
           raw_log_line := line
           log_type := "windows"
           line_number := lineNumber + 1 }
  else none

/-- LogParser.parseLinuxLog, with the regex match injected. -/
def parseLinuxLog (o : JsOracles) (line : String) (lineNumber : Nat) :
    Option ParsedLogEntry :=
  match o.rxLinux line with
  | none => none
  | some m =>
    some { timestamp := parseTimestamp o m.ts "linux"
           ip_address := m.hostname
           event_description := "Linux: " ++ m.service ++ " - " ++ m.message
           hostname := some m.hostname
           service := some m.service
           message := some m.message
           raw_log_line := line
           log_type := "linux"
           line_number := lineNumber + 1 }

/-- LogParser.parseGenericLog: best-effort IP and timestamp extraction
(injected), with the unknown / now fallbacks. -/
def parseGenericLog (o : JsOracles) (line : String) (lineNumber : Nat) :
    Option ParsedLogEntry :=
  let ip := (o.rxGenericIp line).getD "unknown"
  let timestamp := match o.rxGenericTs line with
    | some t => t
    | none => toISOString o.now
  some { timestamp := parseTimestamp o timestamp "iso"
         ip_address := ip
         event_description := "Generic Log: " ++ takeStr 100 line ++ "..."
         raw_log_line := line
         log_type := "generic"
         line_number := lineNumber + 1 }

/-- Per-format dispatch of the parsers lookup table in parseLogFile; an
unknown format has no parser (parseLogFile raises before reaching lines). -/
def parseLine (o : JsOracles) (format line : String) (lineNumber : Nat) :
    Option ParsedLogEntry :=
  if format = "zscaler" then parseZscalerLog o line lineNumber
  else if format = "apache" then parseApacheLog o line lineNumber
  else if format = "nginx" then parseNginxLog o line lineNumber
  else if format = "windows" then parseWindowsLog o line lineNumber
  else if format = "linux" then parseLinuxLog o line lineNumber
  else if format = "generic" then parseGenericLog o line lineNumber
  else none

/-! ### Summary statistics (LogParser.generateSummary) -/

/-- Increment the count of a key in an insertion-ordered frequency table,
the model of obj[k] = (obj[k] or 0) + 1 on a plain JS object. -/
def bump [DecidableEq α] : List (α × Nat) → α → List (α × Nat)
  | [], k => [(k, 1)]
  | (a, n) :: t, k => if a = k then (a, n + 1) :: t else (a, n) :: bump t k

/-- Aggregate statistics returned by generateSummary. -/
structure LogSummary where
  total_entries : Nat
  unique_ips : Nat
  time_start : Option String
  time_end : Option String
  log_types : List (String × Nat)
  status_codes : List (Nat × Nat)
  top_ips : List (String × Nat)
  top_events : List (String × Nat)
deriving DecidableEq, Repr

/-- The Date value built from an entry's timestamp field inside
generateSummary; entries reaching the summary always carry toISOString
output, the only shape parseISOZ needs to cover. -/
def jsDateOfEntry (e : ParsedLogEntry) : Nat := (parseISOZ e.timestamp).getD 0

/-- LogParser.generateSummary.  The time range takes the first and last
element of the timestamp array after a default (string-comparing)
JavaScript sort of the Date objects.  The status-code guard and the IP
guard reproduce the JS truthiness tests. -/
def generateSummary (entries : List ParsedLogEntry) : LogSummary :=
  let timestamps := jsDefaultDateSort (entries.map jsDateOfEntry)
  { total_entries := entries.length
    unique_ips := (entries.map (fun e => e.ip_address)).dedup.length
    time_start := match timestamps with
      | [] => none
      | t :: _ => some (toISOString t)
    time_end := (timestamps.getLast?).map toISOString
    log_types := entries.foldl (fun acc e => bump acc e.log_type) []
    status_codes := entries.foldl (fun acc e =>
      match e.status_code with
      | some c => if c ≠ 0 then bump acc c else acc
      | none => acc) []
    top_ips := entries.foldl (fun acc e =>
      if e.ip_address ≠ "" ∧ e.ip_address ≠ "unknown" then bump acc e.ip_address
      else acc) []
    top_events := entries.foldl (fun acc e =>
      bump acc (takeStr 50 e.event_description)) [] }

/-! ### Tiered anomaly classifier embedding (backend aiAnalyzer.js)

Remote tiers are modelled by injected outcomes.  Tier 1
(analyzeWithOpenAI) is injected as the outcome of the whole remote
call including its internal response handling: Except.error covers every
thrown failure (network, auth, missing response fields), Except.ok the
AnalysisResult it would produce.  Tier 2 (analyzeWithHuggingFace) is
injected at the remote-response level, since its result mapping and its
own try/catch are code under verification. -/

/-- One analysis result, the object shape every tier returns.  Being a
structure, all five fields are always present. -/
structure AnalysisResult where
  status : String
  confidence_score : ℚ
  explanation : String
  threat_level : String
  recommended_action : String
deriving DecidableEq, Repr

/-- One weighted suspicious pattern; source is the regex source text, an
alternation of literal lowercase strings matched case-insensitively. -/
structure WeightedPattern where
  src : String
  weight : ℚ
deriving DecidableEq, Repr

/-- The fixed ordered pattern list of analyzeWithRules. -/
def suspiciousPatterns : List WeightedPattern :=
  [ ⟨"failed login|authentication failed", 3/10⟩,
    ⟨"block|deny|drop", 4/10⟩,
    ⟨"malware|virus|trojan", 8/10⟩,
    ⟨"admin|root|privileged", 3/10⟩,
    ⟨"sql injection|xss|csrf", 9/10⟩,
    ⟨"port scan|brute force", 7/10⟩,
    ⟨"suspicious|anomalous", 6/10⟩ ]

/-- Case-insensitive test of an alternation-of-literals regex against a
string, the model of pattern.test(s) for the patterns above. -/
def regexTest (src : String) (s : String) : Bool :=
  (splitOnC '|' src.toList).any (fun alt => containsC alt (lowerList s.toList))

/-- Does a pattern match the entry, testing both event_description and
raw_log_line as the rule loop does? -/
def entryMatches (p : WeightedPattern) (e : ParsedLogEntry) : Bool :=
  regexTest p.src e.event_description || regexTest p.src e.raw_log_line

/-- The hardcoded example denylist of analyzeWithRules. -/
def maliciousIPs : List String := ["203.0.113.45", "192.0.2.1"]

/-- Count of context entries sharing the entry's IP address. -/
def sameIPCount (e : ParsedLogEntry) (context : List ParsedLogEntry) : Nat :=
  (context.filter (fun c => c.ip_address = e.ip_address)).length

/-- The pattern-loop part of totalScore: sum of the weights of the
patterns matching the entry, accumulated in list order. -/
def patScore (e : ParsedLogEntry) : ℚ :=
  suspiciousPatterns.foldl (fun acc p => if entryMatches p e then acc + p.weight else acc) 0

/-- The totalScore computed by analyzeWithRules: matched pattern weights,
plus 3/10 when more than 5 context entries share the IP, plus 8/10 when
the IP is on the denylist. -/
def ruleScore (e : ParsedLogEntry) (context : List ParsedLogEntry) : ℚ :=
  let base := patScore e
  let withRep := if 5 < sameIPCount e context then base + 3/10 else base
  if e.ip_address ∈ maliciousIPs then withRep + 8/10 else withRep

/-- The matchedPatterns list accumulated by analyzeWithRules, in push
order: matching pattern sources, then the repetition marker, then the
denylist marker. -/
def matchedNames (e : ParsedLogEntry) (context : List ParsedLogEntry) : List String :=
  (suspiciousPatterns.filter (fun p => entryMatches p e)).map (fun p => p.src) ++
    (if 5 < sameIPCount e context then ["repeated_events"] else []) ++
    (if e.ip_address ∈ maliciousIPs then ["known_malicious_ip"] else [])

/-- The explanation string analyzeWithRules attaches to its result. -/
def ruleExplanation (e : ParsedLogEntry) (context : List ParsedLogEntry) : String :=
  "Rule-based analysis: " ++
    (if (matchedNames e context).length > 0 then
      "Detected patterns: " ++ String.intercalate ", " (matchedNames e context)
    else "No suspicious patterns detected")

/-- AIAnalyzer.analyzeWithRules: deterministic Tier 3 rule engine, with
totalScore given by ruleScore. -/
def analyzeWithRules (e : ParsedLogEntry) (context : List ParsedLogEntry) :
    AnalysisResult :=
  if 7/10 < ruleScore e context then
    { status := "anomaly"
      confidence_score := min (ruleScore e context) (95/100)
      explanation := ruleExplanation e context
      threat_level := "high"
      recommended_action := "Investigate immediately" }
  else if 4/10 < ruleScore e context then
    { status := "suspicious"
      confidence_score := ruleScore e context
      explanation := ruleExplanation e context
      threat_level := "medium"
      recommended_action := "Monitor closely" }
  else
    { status := "normal"
      confidence_score := 1/2
      explanation := ruleExplanation e context
      threat_level := "low"
      recommended_action := "Monitor" }

/-- Classifier configuration: the two API keys read from the environment
at construction. -/
structure AnalyzerConfig where
  openaiApiKey : Option String
  huggingfaceApiKey : Option String

/-- JavaScript truthiness of an optional string: absent and empty are
falsy.  Models the double-negation key checks in the constructor. -/
def truthyStr : Option String → Bool
  | none => false
  | some s => s ≠ ""

/-- Is the OpenAI tier configured? -/
def useOpenAI (c : AnalyzerConfig) : Bool := truthyStr c.openaiApiKey

/-- Is the HuggingFace tier configured? -/
def useHuggingFace (c : AnalyzerConfig) : Bool := truthyStr c.huggingfaceApiKey

/-- Well-shaped zero-shot classification response: top label and score.
A malformed or failed remote response is an Except.error instead. -/
structure HFResponse where
  label : String
  score : ℚ
deriving DecidableEq, Repr

/-- AIAnalyzer.mapHuggingFaceLabel. -/
def mapHuggingFaceLabel (label : String) : String :=
  if label = "normal" then "normal"
  else if label = "suspicious" then "suspicious"
  else if label = "malicious" then "anomaly"
  else if label = "error" then "suspicious"
  else "normal"

/-- AIAnalyzer.getThreatLevel. -/
def getThreatLevel (label : String) (confidence : ℚ) : String :=
  if label = "malicious" ∧ 7/10 < confidence then "high"
  else if label = "suspicious" ∧ 3/5 < confidence then "medium"
  else "low"

/-- AIAnalyzer.getRecommendedAction. -/
def getRecommendedAction (label : String) : String :=
  if label = "normal" then "Continue monitoring"
  else if label = "suspicious" then "Monitor closely"
  else if label = "malicious" then "Investigate immediately"
  else if label = "error" then "Check system logs"
  else "Monitor"

/-- Number.prototype.toFixed(1) on a nonnegative rational. -/
def toFixed1 (q : ℚ) : String :=
  let m : Int := (q * 10 + 1/2).floor
  toString (m / 10) ++ "." ++ toString (m % 10)

/-- The result analyzeWithHuggingFace builds from a well-shaped response. -/
def hfAnalysis (r : HFResponse) : AnalysisResult :=
  { status := mapHuggingFaceLabel r.label
    confidence_score := r.score
    explanation := "Classified as " ++ r.label ++ " with " ++
      toFixed1 (r.score * 100) ++ "% confidence"
    threat_level := getThreatLevel r.label r.score
    recommended_action := getRecommendedAction r.label }

/-- AIAnalyzer.analyzeWithHuggingFace: the remote call is injected; the
internal try/catch turns any failure into a rule-engine result, so this
tier never raises. -/
def analyzeWithHuggingFace (tier2 : Except String HFResponse)
    (e : ParsedLogEntry) (context : List ParsedLogEntry) :
    Except String AnalysisResult :=
  match tier2 with
  | Except.ok r => Except.ok (hfAnalysis r)
  | Except.error _ => Except.ok (analyzeWithRules e context)

/-- AIAnalyzer.analyzeLogEntry: tier selection by configuration, with the
surrounding try/catch falling back to the rule engine on any raised
failure.  tier1 is the injected outcome of analyzeWithOpenAI, tier2 the
injected remote response of analyzeWithHuggingFace. -/
def analyzeLogEntry (cfg : AnalyzerConfig) (tier1 : Except String AnalysisResult)
    (tier2 : Except String HFResponse) (e : ParsedLogEntry)
    (context : List ParsedLogEntry) : Except String AnalysisResult :=
  let body :=
    if useOpenAI cfg then tier1
    else if useHuggingFace cfg then analyzeWithHuggingFace tier2 e context
    else Except.ok (analyzeWithRules e context)
  match body with
  | Except.ok r => Except.ok r
  | Except.error _ => Except.ok (analyzeWithRules e context)

/-- Well-formedness of an analysis result: enumerated status and threat
level, confidence within the unit interval.  Field presence itself is
guaranteed by the structure type. -/
def wellFormedResult (r : AnalysisResult) : Prop :=
  (r.status = "normal" ∨ r.status = "suspicious" ∨ r.status = "anomaly") ∧
    (r.threat_level = "low" ∨ r.threat_level = "medium" ∨ r.threat_level = "high" ∨
      r.threat_level = "critical") ∧
    0 ≤ r.confidence_score ∧ r.confidence_score ≤ 1

instance (r : AnalysisResult) : Decidable (wellFormedResult r) := by
  unfold wellFormedResult
  infer_instance

/-- Rank of a status in the escalation order normal, suspicious, anomaly. -/
def statusRank (s : String) : Nat :=
  if s = "anomaly" then 2 else if s = "suspicious" then 1 else 0

/-- The status rank determined by a total score under the decision
thresholds of the rule engine. -/
def scoreRank (s : ℚ) : Nat :=
  if 7/10 < s then 2 else if 4/10 < s then 1 else 0

/-! ### Helper lemmas about the rule engine -/

/-- Accumulating weights over a list never decreases the accumulator when
all weights are nonnegative. -/
theorem foldlWeights_ge (l : List WeightedPattern) (f : WeightedPattern → Bool)
    (a : ℚ) (hw : ∀ p ∈ l, 0 ≤ p.weight) :
    a ≤ l.foldl (fun acc p => if f p then acc + p.weight else acc) a := by
  induction l generalizing a with
  | nil => simp
  | cons p t ih =>
    simp only [List.foldl_cons]
    have hp : 0 ≤ p.weight := hw p (by simp)
    have ht : ∀ q ∈ t, 0 ≤ q.weight := fun q hq => hw q (List.mem_cons_of_mem _ hq)
    by_cases hf : f p
    · rw [if_pos hf]
      exact le_trans (by linarith) (ih (a + p.weight) ht)
    · rw [if_neg hf]
      exact ih a ht

/-- Weight accumulation is monotone in both the starting accumulator and
the matching predicate, for nonnegative weights. -/
theorem foldlWeights_mono (l : List WeightedPattern) (f g : WeightedPattern → Bool)
    (a b : ℚ) (hab : a ≤ b) (hw : ∀ p ∈ l, 0 ≤ p.weight)
    (hfg : ∀ p ∈ l, f p = true → g p = true) :
    l.foldl (fun acc p => if f p then acc + p.weight else acc) a ≤
      l.foldl (fun acc p => if g p then acc + p.weight else acc) b := by
  induction l generalizing a b with
  | nil => simpa
  | cons p t ih =>
    simp only [List.foldl_cons]
    have hp : 0 ≤ p.weight := hw p (by simp)
    have ht : ∀ q ∈ t, 0 ≤ q.weight := fun q hq => hw q (List.mem_cons_of_mem _ hq)
    have htfg : ∀ q ∈ t, f q = true → g q = true :=
      fun q hq => hfg q (List.mem_cons_of_mem _ hq)
    apply ih _ _ ?_ ht htfg
    by_cases hf : f p
    · have hg : g p = true := hfg p (by simp) hf
      rw [if_pos hf, if_pos hg]
      linarith
    · by_cases hg : g p
      · rw [if_neg hf, if_pos hg]
        linarith
      · rw [if_neg hf, if_neg hg]
        exact hab

/-- If no pattern in the list matches, the weight accumulation returns
the accumulator unchanged. -/
theorem foldlWeights_none (l : List WeightedPattern) (f : WeightedPattern → Bool)
    (a : ℚ) (h : ∀ p ∈ l, f p = false) :
    l.foldl (fun acc p => if f p then acc + p.weight else acc) a = a := by
  induction l generalizing a with
  | nil => simp
  | cons p t ih =>
    simp only [List.foldl_cons]
    rw [if_neg (by simp [h p (by simp)])]
    exact ih a (fun q hq => h q (List.mem_cons_of_mem _ hq))

/-- Every weight in the fixed pattern list is nonnegative. -/
theorem suspiciousPatterns_weights_nonneg : ∀ p ∈ suspiciousPatterns, 0 ≤ p.weight := by
  intro p hp
  simp only [suspiciousPatterns, List.mem_cons, List.not_mem_nil, or_false] at hp
  rcases hp with h | h | h | h | h | h | h <;> subst h <;> norm_num

/-- The pattern part of the total score is nonnegative. -/
theorem patScore_nonneg (e : ParsedLogEntry) : 0 ≤ patScore e :=
  foldlWeights_ge suspiciousPatterns (fun p => entryMatches p e) 0
    suspiciousPatterns_weights_nonneg

/-- The total score of the rule engine is nonnegative. -/
theorem ruleScore_nonneg (e : ParsedLogEntry) (context : List ParsedLogEntry) :
    0 ≤ ruleScore e context := by
  have := patScore_nonneg e
  unfold ruleScore
  split_ifs <;> dsimp only <;> linarith

/-- An entry matching no pattern, with no repetition in context and an IP
off the denylist, scores zero. -/
theorem ruleScore_no_signal (e : ParsedLogEntry) (context : List ParsedLogEntry)
    (hm : ∀ p ∈ suspiciousPatterns, entryMatches p e = false)
    (hc : ¬ 5 < sameIPCount e context) (hip : e.ip_address ∉ maliciousIPs) :
    ruleScore e context = 0 := by
  unfold ruleScore
  rw [if_neg hip, if_neg hc]
  exact foldlWeights_none suspiciousPatterns _ 0 hm

/-- The status assigned by the rule engine is fully determined by the
total score through the decision thresholds. -/
theorem analyzeWithRules_statusRank (e : ParsedLogEntry) (context : List ParsedLogEntry) :
    statusRank (analyzeWithRules e context).status = scoreRank (ruleScore e context) := by
  unfold analyzeWithRules scoreRank
  split_ifs <;> rfl

/-- The score-to-rank function is monotone. -/
theorem scoreRank_mono {s t : ℚ} (h : s ≤ t) : scoreRank s ≤ scoreRank t := by
  unfold scoreRank
  split_ifs <;> first | omega | linarith

/-- The rule engine always produces a well-formed result. -/
theorem analyzeWithRules_wellFormed (e : ParsedLogEntry) (context : List ParsedLogEntry) :
    wellFormedResult (analyzeWithRules e context) := by
  have h0 : 0 ≤ ruleScore e context := ruleScore_nonneg e context
  unfold analyzeWithRules wellFormedResult
  split_ifs with h1 h2
  · refine ⟨Or.inr (Or.inr rfl), Or.inr (Or.inr (Or.inl rfl)), ?_, ?_⟩
    · exact le_min h0 (by norm_num)
    · exact le_trans (min_le_right _ _) (by norm_num)
  · exact ⟨Or.inr (Or.inl rfl), Or.inr (Or.inl rfl), by linarith, by linarith⟩
  · exact ⟨Or.inl rfl, Or.inl rfl, by norm_num, by norm_num⟩

/-! ### Concrete entries used by witnesses and counterexamples -/

/-- The spec's worked example entry: two patterns match its description. -/
def sqlExampleEntry : ParsedLogEntry :=
  { event_description := "sql injection detected from admin account"
    ip_address := "1.2.3.4"
    raw_log_line := "" }

/-- A benign entry: no pattern matches, IP off the denylist. -/
def c4Entry : ParsedLogEntry :=
  { event_description := "routine heartbeat ok"
    ip_address := "9.9.9.9"
    raw_log_line := "" }

/-- A benign entry used for the tier-cascade counterexample. -/
def c1Entry : ParsedLogEntry :=
  { event_description := "routine status ping"
    ip_address := "10.1.1.1"
    raw_log_line := "" }

/-- The worked example entry scores 0.9 + 0.3 = 1.2. -/
theorem sqlExample_ruleScore : ruleScore sqlExampleEntry [] = 12/10 := by
  have hm1 : entryMatches ⟨"failed login|authentication failed", 3/10⟩ sqlExampleEntry
      = false := by decide
  have hm2 : entryMatches ⟨"block|deny|drop", 4/10⟩ sqlExampleEntry = false := by decide
  have hm3 : entryMatches ⟨"malware|virus|trojan", 8/10⟩ sqlExampleEntry = false := by decide
  have hm4 : entryMatches ⟨"admin|root|privileged", 3/10⟩ sqlExampleEntry = true := by decide
  have hm5 : entryMatches ⟨"sql injection|xss|csrf", 9/10⟩ sqlExampleEntry = true := by decide
  have hm6 : entryMatches ⟨"port scan|brute force", 7/10⟩ sqlExampleEntry = false := by decide
  have hm7 : entryMatches ⟨"suspicious|anomalous", 6/10⟩ sqlExampleEntry = false := by decide
  have hip : sqlExampleEntry.ip_address ∉ maliciousIPs := by decide
  have hc : ¬ 5 < sameIPCount sqlExampleEntry [] := by decide
  unfold ruleScore
  rw [if_neg hip, if_neg hc]
  unfold patScore suspiciousPatterns
  simp only [List.foldl_cons, List.foldl_nil, hm1, hm2, hm3, hm4, hm5, hm6, hm7,
    if_true, if_false]
  norm_num

/-- C5: the decision thresholds of the Tier 3 rule engine: totalScore
above 0.7 yields an anomaly with confidence clamped at 0.95, high threat
and immediate investigation; totalScore in (0.4, 0.7] yields suspicious
with the score as confidence, medium threat, close monitoring; otherwise
the defaults are unchanged.  In particular the description about a sql
injection from an admin account with empty context yields an anomaly with
confidence 0.95 and high threat level. -/
theorem analyzeWithRules_thresholds (e : ParsedLogEntry) (ctx : List ParsedLogEntry) :
    (7/10 < ruleScore e ctx →
      analyzeWithRules e ctx =
        ⟨"anomaly", min (ruleScore e ctx) (95/100), ruleExplanation e ctx, "high",
          "Investigate immediately"⟩) ∧
    (4/10 < ruleScore e ctx → ruleScore e ctx ≤ 7/10 →
      analyzeWithRules e ctx =
        ⟨"suspicious", ruleScore e ctx, ruleExplanation e ctx, "medium",
          "Monitor closely"⟩) ∧
    (ruleScore e ctx ≤ 4/10 →
      analyzeWithRules e ctx =
        ⟨"normal", 1/2, ruleExplanation e ctx, "low", "Monitor"⟩) ∧
    (analyzeWithRules sqlExampleEntry []).status = "anomaly" ∧
    (analyzeWithRules sqlExampleEntry []).confidence_score = 95/100 ∧
    (analyzeWithRules sqlExampleEntry []).threat_level = "high" := by
  have hsql : 7/10 < ruleScore sqlExampleEntry [] := by
    rw [sqlExample_ruleScore]; norm_num
  refine ⟨?_, ?_, ?_, ?_, ?_, ?_⟩
  · intro h1
    unfold analyzeWithRules
    rw [if_pos h1]
  · intro h1 h2
    unfold analyzeWithRules
    rw [if_neg (by linarith : ¬ 7/10 < ruleScore e ctx), if_pos h1]
  · intro h1
    unfold analyzeWithRules
    rw [if_neg (by linarith : ¬ 7/10 < ruleScore e ctx),
        if_neg (by linarith : ¬ 4/10 < ruleScore e ctx)]
  · unfold analyzeWithRules
    rw [if_pos hsql]
  · unfold analyzeWithRules
    rw [if_pos hsql]
    show min (ruleScore sqlExampleEntry []) (95/100) = 95/100
    rw [sqlExample_ruleScore]
    norm_num
  · unfold analyzeWithRules
    rw [if_pos hsql]

/-- Witness for the thresholds theorem, discharging its hypotheses on the
worked example entry. -/
theorem analyzeWithRules_thresholds_witness :
    analyzeWithRules sqlExampleEntry [] =
      ⟨"anomaly", min (ruleScore sqlExampleEntry []) (95/100),
        ruleExplanation sqlExampleEntry [], "high", "Investigate immediately"⟩ :=
  (analyzeWithRules_thresholds sqlExampleEntry []).1
    (by rw [sqlExample_ruleScore]; norm_num)

/-- C6: enlarging the set of matching patterns of an entry, keeping its IP
address fixed, never decreases the total score and never downgrades the
status in the order normal, suspicious, anomaly. -/
theorem ruleScore_status_monotone (e eb : ParsedLogEntry) (ctx : List ParsedLogEntry)
    (hip : eb.ip_address = e.ip_address)
    (hm : ∀ p ∈ suspiciousPatterns, entryMatches p e = true → entryMatches p eb = true) :
    ruleScore e ctx ≤ ruleScore eb ctx ∧
      statusRank (analyzeWithRules e ctx).status ≤
        statusRank (analyzeWithRules eb ctx).status := by
  have hpat : patScore e ≤ patScore eb :=
    foldlWeights_mono suspiciousPatterns _ _ 0 0 le_rfl
      suspiciousPatterns_weights_nonneg hm
  have hcount : sameIPCount eb ctx = sameIPCount e ctx := by
    unfold sameIPCount
    rw [hip]
  have hsc : ruleScore e ctx ≤ ruleScore eb ctx := by
    unfold ruleScore
    rw [hip, hcount]
    split_ifs <;> dsimp only <;> linarith
  refine ⟨hsc, ?_⟩
  rw [analyzeWithRules_statusRank, analyzeWithRules_statusRank]
  exact scoreRank_mono hsc

/-- Entry matching one pattern, for the monotonicity witness. -/
def c6EntryA : ParsedLogEntry :=
  { event_description := "failed login attempt"
    ip_address := "5.5.5.5"
    raw_log_line := "" }

/-- Same entry with a description matching one additional pattern. -/
def c6EntryB : ParsedLogEntry :=
  { event_description := "failed login attempt blocked"
    ip_address := "5.5.5.5"
    raw_log_line := "" }

/-- Witness for score and status monotonicity at a concrete pair of
entries where one additional pattern matches. -/
theorem ruleScore_status_monotone_witness :
    ruleScore c6EntryA [] ≤ ruleScore c6EntryB [] ∧
      statusRank (analyzeWithRules c6EntryA []).status ≤
        statusRank (analyzeWithRules c6EntryB []).status :=
  ruleScore_status_monotone c6EntryA c6EntryB [] rfl (by decide)

/-- C4 counterexample: with exactly five context entries sharing the
entry's IP the repetition rule contributes nothing, so the claim's
five-or-more reading fails. -/
theorem repeatedIP_five_counterexample :
    sameIPCount c4Entry (List.replicate 5 c4Entry) = 5 ∧
      ruleScore c4Entry (List.replicate 5 c4Entry) = 0 ∧
      ¬ 3/10 ≤ ruleScore c4Entry (List.replicate 5 c4Entry) := by
  have h0 : ruleScore c4Entry (List.replicate 5 c4Entry) = 0 :=
    ruleScore_no_signal _ _ (by decide) (by decide) (by decide)
  refine ⟨by decide, h0, ?_⟩
  rw [h0]
  norm_num

/-- C4 amended: with strictly more than five same-IP context entries the
repetition rule contributes exactly 0.3 on top of the context-free score,
and the total score is at least 0.3. -/
theorem repeatedIP_rule_adds_bonus (e : ParsedLogEntry) (ctx : List ParsedLogEntry)
    (h : 5 < sameIPCount e ctx) :
    ruleScore e ctx = ruleScore e [] + 3/10 ∧ 3/10 ≤ ruleScore e ctx := by
  have h0 : ¬ 5 < sameIPCount e ([] : List ParsedLogEntry) := by
    unfold sameIPCount
    simp
  have hpat := patScore_nonneg e
  constructor
  · unfold ruleScore
    dsimp only
    rw [if_pos h, if_neg h0]
    split_ifs <;> ring
  · unfold ruleScore
    dsimp only
    rw [if_pos h]
    split_ifs <;> linarith

/-- Witness for the repetition bonus at six same-IP context entries. -/
theorem repeatedIP_rule_adds_bonus_witness :
    ruleScore c4Entry (List.replicate 6 c4Entry) = ruleScore c4Entry [] + 3/10 ∧
      3/10 ≤ ruleScore c4Entry (List.replicate 6 c4Entry) :=
  repeatedIP_rule_adds_bonus c4Entry (List.replicate 6 c4Entry) (by decide)

/-- C7: with neither credential configured, analyzeLogEntry returns
exactly the Tier 3 rule engine result. -/
theorem analyzeLogEntry_no_keys (cfg : AnalyzerConfig)
    (tier1 : Except String AnalysisResult) (tier2 : Except String HFResponse)
    (e : ParsedLogEntry) (ctx : List ParsedLogEntry)
    (h1 : useOpenAI cfg = false) (h2 : useHuggingFace cfg = false) :
    analyzeLogEntry cfg tier1 tier2 e ctx = Except.ok (analyzeWithRules e ctx) := by
  unfold analyzeLogEntry
  simp [h1, h2]

/-- Witness for the unconfigured cascade at a concrete configuration. -/
theorem analyzeLogEntry_no_keys_witness :
    analyzeLogEntry ⟨none, none⟩ (Except.error "t1 down") (Except.error "t2 down")
        c4Entry [] = Except.ok (analyzeWithRules c4Entry []) :=
  analyzeLogEntry_no_keys ⟨none, none⟩ (Except.error "t1 down") (Except.error "t2 down")
    c4Entry [] rfl rfl

/-- C2: analyzeLogEntry never lets a failure escape: for every
configuration and injected tier outcomes it returns Except.ok, and when
both remote tiers fail it returns the rule engine result, which is
well-formed. -/
theorem analyzeLogEntry_total (cfg : AnalyzerConfig)
    (tier1 : Except String AnalysisResult) (tier2 : Except String HFResponse)
    (e : ParsedLogEntry) (ctx : List ParsedLogEntry) :
    (∃ r, analyzeLogEntry cfg tier1 tier2 e ctx = Except.ok r) ∧
    (∀ err1 err2, tier1 = Except.error err1 → tier2 = Except.error err2 →
      analyzeLogEntry cfg tier1 tier2 e ctx = Except.ok (analyzeWithRules e ctx) ∧
        wellFormedResult (analyzeWithRules e ctx)) := by
  constructor
  · unfold analyzeLogEntry analyzeWithHuggingFace
    by_cases h1 : useOpenAI cfg = true
    · cases tier1 with
      | ok r => exact ⟨r, by simp [h1]⟩
      | error m => exact ⟨analyzeWithRules e ctx, by simp [h1]⟩
    · by_cases h2 : useHuggingFace cfg = true
      · cases tier2 with
        | ok r => exact ⟨hfAnalysis r, by simp [h1, h2]⟩
        | error m => exact ⟨analyzeWithRules e ctx, by simp [h1, h2]⟩
      · exact ⟨analyzeWithRules e ctx, by simp [h1, h2]⟩
  · intro err1 err2 ht1 ht2
    subst ht1
    subst ht2
    refine ⟨?_, analyzeWithRules_wellFormed e ctx⟩
    unfold analyzeLogEntry analyzeWithHuggingFace
    by_cases h1 : useOpenAI cfg = true <;> by_cases h2 : useHuggingFace cfg = true <;>
      simp [h1, h2]

/-- Witness for fallback completeness with one configured key and both
tiers failing. -/
theorem analyzeLogEntry_total_witness :
    analyzeLogEntry ⟨some "key", none⟩ (Except.error "auth failure")
        (Except.error "network failure") c4Entry [] =
      Except.ok (analyzeWithRules c4Entry []) ∧
      wellFormedResult (analyzeWithRules c4Entry []) :=
  (analyzeLogEntry_total ⟨some "key", none⟩ (Except.error "auth failure")
    (Except.error "network failure") c4Entry []).2 "auth failure" "network failure" rfl rfl

/-- Configuration with both remote tiers configured. -/
def bothKeysConfig : AnalyzerConfig := ⟨some "k1", some "k2"⟩

/-- A successful zero-shot response reporting malicious activity. -/
def hfMalicious : HFResponse := ⟨"malicious", 9/10⟩

/-- C1 counterexample: with both tiers configured and Tier 1 failing,
analyzeLogEntry returns the rule engine result even though the configured
Tier 2 would have succeeded with a different (anomaly) result: Tier 2 is
skipped, contradicting the claimed cascade. -/
theorem analyzeLogEntry_skips_tier2 :
    useOpenAI bothKeysConfig = true ∧ useHuggingFace bothKeysConfig = true ∧
    analyzeLogEntry bothKeysConfig (Except.error "network error") (Except.ok hfMalicious)
        c1Entry [] = Except.ok (analyzeWithRules c1Entry []) ∧
    analyzeWithHuggingFace (Except.ok hfMalicious) c1Entry [] =
      Except.ok (hfAnalysis hfMalicious) ∧
    (hfAnalysis hfMalicious).status = "anomaly" ∧
    (analyzeWithRules c1Entry []).status = "normal" := by
  have h0 : ruleScore c1Entry [] = 0 :=
    ruleScore_no_signal _ _ (by decide) (by decide) (by decide)
  refine ⟨rfl, rfl, rfl, rfl, rfl, ?_⟩
  unfold analyzeWithRules
  rw [h0, if_neg (by norm_num : ¬ (7 : ℚ)/10 < 0), if_neg (by norm_num : ¬ (4 : ℚ)/10 < 0)]

/-- C1 amended: whenever Tier 1 is configured and raises, analyzeLogEntry
returns the Tier 3 rule engine result directly, regardless of the Tier 2
configuration or outcome, and the failure is not raised past it. -/
theorem analyzeLogEntry_tier1_failure_to_rules (cfg : AnalyzerConfig)
    (tier1 : Except String AnalysisResult) (tier2 : Except String HFResponse)
    (e : ParsedLogEntry) (ctx : List ParsedLogEntry) (err : String)
    (hk : useOpenAI cfg = true) (hfail : tier1 = Except.error err) :
    analyzeLogEntry cfg tier1 tier2 e ctx = Except.ok (analyzeWithRules e ctx) := by
  subst hfail
  unfold analyzeLogEntry
  simp [hk]

/-- Witness for the amended cascade at the concrete configuration with
both keys present and Tier 1 failing. -/
theorem analyzeLogEntry_tier1_failure_to_rules_witness :
    analyzeLogEntry bothKeysConfig (Except.error "timeout") (Except.ok hfMalicious)
        c1Entry [] = Except.ok (analyzeWithRules c1Entry []) :=
  analyzeLogEntry_tier1_failure_to_rules bothKeysConfig (Except.error "timeout")
    (Except.ok hfMalicious) c1Entry [] "timeout" rfl rfl

/-! ### Parser claims -/

/-- Oracles in which every regex fails, every date parse is invalid, and
the current instant is the epoch. -/
def noMatchOracles : JsOracles :=
  { jsNewDate := fun _ => none
    now := 0
    rxApache := fun _ => none
    rxNginx := fun _ => none
    rxLinux := fun _ => none
    rxWinEventId := fun _ => none
    rxWinSource := fun _ => none
    rxWinTime := fun _ => none
    rxGenericIp := fun _ => none
    rxGenericTs := fun _ => none }

/-- C8: parseTimestamp always returns the ISO rendering of some instant
(so it is total and its output is a valid ISO-8601 string), and when the
underlying date conversion fails it returns the current instant. -/
theorem parseTimestamp_total (o : JsOracles) (timestamp format : String) :
    (∃ ms, parseTimestamp o timestamp format = toISOString ms) ∧
    (o.jsNewDate (preprocessTimestamp o timestamp format) = none →
      parseTimestamp o timestamp format = toISOString o.now) := by
  unfold parseTimestamp
  cases h : o.jsNewDate (preprocessTimestamp o timestamp format) with
  | none => exact ⟨⟨o.now, rfl⟩, fun _ => rfl⟩
  | some ms => exact ⟨⟨ms, rfl⟩, fun hn => Option.noConfusion hn⟩

/-- Witness for timestamp totality on an unparseable input: the result is
the current instant, a valid ISO string. -/
theorem parseTimestamp_total_witness :
    (∃ ms, parseTimestamp noMatchOracles "not a date" "iso" = toISOString ms) ∧
      parseTimestamp noMatchOracles "not a date" "iso" = toISOString noMatchOracles.now :=
  ⟨(parseTimestamp_total noMatchOracles "not a date" "iso").1,
    (parseTimestamp_total noMatchOracles "not a date" "iso").2 rfl⟩

/-- C9: every entry any of the per-format parsers produces carries the
original line verbatim in raw_log_line. -/
theorem parseLine_raw (o : JsOracles) (format line : String) (n : Nat)
    (e : ParsedLogEntry) (h : parseLine o format line n = some e) :
    e.raw_log_line = line := by
  unfold parseLine at h
  split_ifs at h
  · simp only [parseZscalerLog] at h
    split_ifs at h <;>
      first
        | exact Option.noConfusion h
        | (injection h with h2; subst h2; rfl)
  · simp only [parseApacheLog] at h
    split at h
    · exact Option.noConfusion h
    · injection h with h2
      subst h2
      rfl
  · simp only [parseNginxLog] at h
    split at h
    · exact Option.noConfusion h
    · injection h with h2
      subst h2
      rfl
  · simp only [parseWindowsLog] at h
    split_ifs at h <;>
      first
        | exact Option.noConfusion h
        | (injection h with h2; subst h2; rfl)
  · simp only [parseLinuxLog] at h
    split at h
    · exact Option.noConfusion h
    · injection h with h2
      subst h2
      rfl
  · simp only [parseGenericLog] at h
    injection h with h2
    subst h2
    rfl

/-- The entry produced from a concrete eight-field zscaler line. -/
def c9Entry : ParsedLogEntry :=
  { timestamp := "1970-01-01T00:00:00.000Z"
    ip_address := "b"
    event_description := "ZScaler: d - e (Category: f)"
    raw_log_line := "a,b,c,d,e,f,g,h"
    log_type := "zscaler"
    line_number := 1
    destination_ip := some "c"
    user := some "g"
    url := some "e"
    category := some "f"
    action := some "d"
    reason := some "h" }

/-- Witness: the zscaler parser on a concrete line produces an entry and
its raw_log_line is the source line. -/
theorem parseLine_raw_witness :
    parseLine noMatchOracles "zscaler" "a,b,c,d,e,f,g,h" 0 = some c9Entry ∧
      c9Entry.raw_log_line = "a,b,c,d,e,f,g,h" :=
  ⟨by decide, parseLine_raw noMatchOracles "zscaler" "a,b,c,d,e,f,g,h" 0 c9Entry (by decide)⟩

/-- Keys of a bumped frequency table come from the bumped key or the
previous table. -/
theorem bump_key [DecidableEq α] (l : List (α × Nat)) (k : α) :
    ∀ p ∈ bump l k, p.1 = k ∨ p ∈ l := by
  induction l with
  | nil =>
    intro p hp
    simp only [bump, List.mem_singleton] at hp
    exact Or.inl (by rw [hp])
  | cons a t ih =>
    intro p hp
    obtain ⟨a1, a2⟩ := a
    simp only [bump] at hp
    split_ifs at hp with hak
    · rcases List.mem_cons.mp hp with h2 | h2
      · exact Or.inl (by rw [h2]; exact hak)
      · exact Or.inr (List.mem_cons_of_mem _ h2)
    · rcases List.mem_cons.mp hp with h2 | h2
      · exact Or.inr (by rw [h2]; exact List.mem_cons_self _ _)
      · rcases ih p h2 with h3 | h3
        · exact Or.inl h3
        · exact Or.inr (List.mem_cons_of_mem _ h3)

/-- The top-IP aggregation never admits the literal unknown key. -/
theorem topIps_no_unknown (entries : List ParsedLogEntry) (acc : List (String × Nat))
    (hacc : ∀ p ∈ acc, p.1 ≠ "unknown") :
    ∀ p ∈ entries.foldl (fun acc e =>
        if e.ip_address ≠ "" ∧ e.ip_address ≠ "unknown" then bump acc e.ip_address
        else acc) acc,
      p.1 ≠ "unknown" := by
  induction entries generalizing acc with
  | nil => exact hacc
  | cons e t ih =>
    simp only [List.foldl_cons]
    apply ih
    intro p hp
    split_ifs at hp with hcond
    · rcases bump_key acc e.ip_address p hp with h2 | h2
      · rw [h2]
        exact hcond.2
      · exact hacc p h2
    · exact hacc p hp

/-- C10: entries with the literal unknown IP are counted in total_entries
and contribute the value unknown to the distinct-IP count, but are
excluded from the top_ips frequency table. -/
theorem generateSummary_unknown (entries : List ParsedLogEntry) :
    (generateSummary entries).total_entries = entries.length ∧
    (∀ p ∈ (generateSummary entries).top_ips, p.1 ≠ "unknown") ∧
    (generateSummary entries).unique_ips =
      (entries.map (fun e => e.ip_address)).dedup.length ∧
    (∀ e ∈ entries, e.ip_address = "unknown" →
      "unknown" ∈ (entries.map (fun e => e.ip_address)).dedup) := by
  refine ⟨rfl, ?_, rfl, ?_⟩
  · exact topIps_no_unknown entries [] (by simp)
  · intro e he h
    refine List.mem_dedup.mpr ?_
    rw [← h]
    exact List.mem_map_of_mem _ he

/-- Entry with the literal unknown IP. -/
def unknownIpEntry : ParsedLogEntry :=
  { timestamp := "1970-01-01T00:00:00.000Z"
    ip_address := "unknown"
    event_description := "no ip here"
    raw_log_line := "no ip here"
    log_type := "generic"
    line_number := 1 }

/-- Entry with a concrete IP. -/
def knownIpEntry : ParsedLogEntry :=
  { timestamp := "1970-01-01T00:00:00.000Z"
    ip_address := "7.7.7.7"
    event_description := "ping from 7.7.7.7"
    raw_log_line := "ping from 7.7.7.7"
    log_type := "generic"
    line_number := 2 }

/-- Witness for the unknown-IP handling on a concrete entry list. -/
theorem generateSummary_unknown_witness :
    (∀ p ∈ (generateSummary [unknownIpEntry, knownIpEntry]).top_ips, p.1 ≠ "unknown") ∧
      "unknown" ∈ ([unknownIpEntry, knownIpEntry].map (fun e => e.ip_address)).dedup :=
  ⟨(generateSummary_unknown [unknownIpEntry, knownIpEntry]).2.1,
    (generateSummary_unknown [unknownIpEntry, knownIpEntry]).2.2.2 unknownIpEntry
      (by decide) rfl⟩

/-- Chronologically earlier entry (a Thursday). -/
def c3Entry1 : ParsedLogEntry :=
  { timestamp := "2026-01-01T00:00:00.000Z"
    ip_address := "1.1.1.1"
    event_description := "first event"
    raw_log_line := "l1"
    log_type := "generic"
    line_number := 1 }

/-- Chronologically later entry (a Friday). -/
def c3Entry2 : ParsedLogEntry :=
  { timestamp := "2026-01-02T00:00:00.000Z"
    ip_address := "2.2.2.2"
    event_description := "second event"
    raw_log_line := "l2"
    log_type := "generic"
    line_number := 2 }

/-- C3 refuted: the default JavaScript sort compares Date objects by
their string rendering, so for these two entries (Thu Jan 01 before
Fri Jan 02 chronologically, but Fri before Thu alphabetically) the
reported time range is reversed: start is the later instant and end the
earlier one, even though the first entry is chronologically earlier. -/
theorem generateSummary_time_range_not_chronological :
    (generateSummary [c3Entry1, c3Entry2]).time_start =
        some "2026-01-02T00:00:00.000Z" ∧
      (generateSummary [c3Entry1, c3Entry2]).time_end =
        some "2026-01-01T00:00:00.000Z" ∧
      jsDateOfEntry c3Entry1 < jsDateOfEntry c3Entry2 := by
  refine ⟨by decide, by decide, by decide⟩
